import Mathlib

/-!
Verification development for the shooting-based neural-ODE research code in
`spiral2.py`.

Modelling conventions, used throughout:

* Numeric tensors are modelled exactly: entries are rationals (`ℚ`), except
  where a claim is about the transcendental sigmoid nonlinearity, which is
  modelled over `ℝ`.
* A tensor of leading size `n` whose remaining dimensions are irrelevant to a
  claim is a `List α` of its leading-axis slices; `torch.cat` along dim 0 is
  list append, and python slicing `t[a:b]` is `(List.drop a).take (b - a)`.
* A `K × a × b` tensor is a function `Fin K → Fin a → Fin b → ℚ`;
  `transpose(1,2)` swaps the two inner indices.  Where a model hard-codes the
  feature dimension 2 (the `torch.randn(2,2)` parameter initialisations of the
  MN-family classes), the embedding fixes `d = 2` as well.
* The `d² × d²` regularizer `Kbar` acts on `view(-1,1)`-flattened `d × d`
  matrices; the flat index space is represented by `Fin d × Fin d` in the
  row-major correspondence `(i, j) ↦ i*d + j`, so `view(-1,1)` and the inverse
  `view(d,d)` become the identity on this representation.
* `torch.autograd.grad` computes exact partial derivatives; gradients of the
  Lagrangians are therefore embedded by their hand-computed closed forms, and
  each such definition records the differentiation it embeds in its comment.
  `torch.randn` initialisations are passed as explicit arguments.
-/

namespace Spiral2

/-! ## State codec (`ShootingBlockMNModel2.assemble` / `.disassemble`)

`assemble` is `torch.cat((q1,q2,p1,p2,x1,x2))`: concatenation along the
leading axis (dim 0, the default of `torch.cat`). -/

def assemble {α : Type} (q1 q2 p1 p2 x1 x2 : List α) : List α :=
  q1 ++ q2 ++ p1 ++ p2 ++ x1 ++ x2

/-- `ShootingBlockMNModel2.disassemble(input, dim=0)`: the four particle blocks
are `input[:k]`, `input[k:2k]`, `input[2k:3k]`, `input[3k:4k]`; the rest
`x12 = input[4k:]` is split in half at `x12_nr = int(x12.shape[0]/2)`
(integer division). -/
def disassembleDim0 {α : Type} (k : ℕ) (input : List α) :
    List α × List α × List α × List α × List α × List α :=
  let q1 := input.take k
  let q2 := (input.drop k).take k
  let p1 := (input.drop (2 * k)).take k
  let p2 := (input.drop (3 * k)).take k
  let x12 := input.drop (4 * k)
  let x12nr := x12.length / 2
  let x1 := x12.take x12nr
  let x2 := x12.drop x12nr
  (q1, q2, p1, p2, x1, x2)

/-- `ShootingBlockMNModel2.disassemble(input, dim=1)`: the same slicing along
the second axis of a `[time, state, ...]` tensor.  The outer list is the time
axis; `x12_nr = int(x12.size()[1]/2)` reads the dim-1 size, which for a
(rectangular) tensor is the common row length, here read off the first row. -/
def disassembleDim1 {α : Type} (k : ℕ) (input : List (List α)) :
    List (List α) × List (List α) × List (List α) × List (List α) ×
      List (List α) × List (List α) :=
  let q1 := input.map (fun r => r.take k)
  let q2 := input.map (fun r => (r.drop k).take k)
  let p1 := input.map (fun r => (r.drop (2 * k)).take k)
  let p2 := input.map (fun r => (r.drop (3 * k)).take k)
  let x12 := input.map (fun r => r.drop (4 * k))
  let x12nr := x12.headI.length / 2
  (q1, q2, p1, p2, x12.map (fun r => r.take x12nr), x12.map (fun r => r.drop x12nr))

/-- `torch.zeros_like(x)` for a `B × 1 × d` data tensor modelled as a list of
`1 × d` rows. -/
def zerosLike (x : List (List ℚ)) : List (List ℚ) :=
  x.map (fun r => r.map (fun _ => (0 : ℚ)))

/-- `ShootingBlockMNModel2.get_initial_condition(x)`:
`assemble(q1_params, q2_params, p1_params, p2_params, x, torch.zeros_like(x))`. -/
def getInitialCondition (q1p q2p p1p p2p : List (List ℚ)) (x : List (List ℚ)) :
    List (List ℚ) :=
  assemble q1p q2p p1p p2p x (zerosLike x)

/-- Splitting a concatenation of six blocks at the blocks' own lengths
recovers the blocks, provided the four particle blocks have length `k` and the
two data blocks have equal length (so that the halving of `x12` lands at the
boundary). -/
lemma disassembleDim0_assemble {α : Type} (k : ℕ)
    (q1 q2 p1 p2 x1 x2 : List α)
    (h1 : q1.length = k) (h2 : q2.length = k) (h3 : p1.length = k)
    (h4 : p2.length = k) (hx : x1.length = x2.length) :
    disassembleDim0 k (assemble q1 q2 p1 p2 x1 x2) = (q1, q2, p1, p2, x1, x2) := by
  have hA : assemble q1 q2 p1 p2 x1 x2 = q1 ++ (q2 ++ (p1 ++ (p2 ++ (x1 ++ x2)))) := by
    simp [assemble]
  have e1 : (assemble q1 q2 p1 p2 x1 x2).drop k = q2 ++ (p1 ++ (p2 ++ (x1 ++ x2))) := by
    rw [hA]; exact List.drop_left' h1
  have e2 : (assemble q1 q2 p1 p2 x1 x2).drop (2 * k) = p1 ++ (p2 ++ (x1 ++ x2)) := by
    rw [hA, ← List.append_assoc q1 q2]
    refine List.drop_left' ?_
    rw [List.length_append, h1, h2, two_mul]
  have e3 : (assemble q1 q2 p1 p2 x1 x2).drop (3 * k) = p2 ++ (x1 ++ x2) := by
    rw [hA, ← List.append_assoc q2 p1, ← List.append_assoc q1]
    refine List.drop_left' ?_
    rw [List.length_append, List.length_append, h1, h2, h3]; ring
  have e4 : (assemble q1 q2 p1 p2 x1 x2).drop (4 * k) = x1 ++ x2 := by
    rw [hA, ← List.append_assoc p1 p2, ← List.append_assoc q2, ← List.append_assoc q1]
    refine List.drop_left' ?_
    simp only [List.length_append, h1, h2, h3, h4]; ring
  have hnr : (x1 ++ x2).length / 2 = x1.length := by
    rw [List.length_append, ← hx, ← two_mul]
    exact Nat.mul_div_cancel_left _ (by norm_num)
  simp only [disassembleDim0, e1, e2, e3, e4, hnr]
  refine Prod.ext ?_ (Prod.ext ?_ (Prod.ext ?_ (Prod.ext ?_ (Prod.ext ?_ ?_))))
  · rw [hA]; exact List.take_left' h1
  · exact List.take_left' h2
  · exact List.take_left' h3
  · exact List.take_left' h4
  · exact List.take_left' rfl
  · exact List.drop_left' rfl

/-- Reassembling the six dim-0 pieces of any state list gives the list back:
the slices `[:k]`, `[k:2k]`, `[2k:3k]`, `[3k:4k]`, and the two halves of
`[4k:]` partition the list. -/
lemma assemble_disassembleDim0 {α : Type} (k : ℕ) (s : List α) :
    assemble (disassembleDim0 k s).1 (disassembleDim0 k s).2.1
      (disassembleDim0 k s).2.2.1 (disassembleDim0 k s).2.2.2.1
      (disassembleDim0 k s).2.2.2.2.1 (disassembleDim0 k s).2.2.2.2.2 = s := by
  simp only [disassembleDim0, assemble]
  have t2 : s.take k ++ (s.drop k).take k = s.take (2 * k) := by
    rw [two_mul, List.take_add]
  have t3 : s.take (2 * k) ++ (s.drop (2 * k)).take k = s.take (3 * k) := by
    rw [show 3 * k = 2 * k + k by ring, List.take_add]
  have t4 : s.take (3 * k) ++ (s.drop (3 * k)).take k = s.take (4 * k) := by
    rw [show 4 * k = 3 * k + k by ring, List.take_add]
  rw [t2, t3, t4, List.append_assoc, List.take_append_drop, List.take_append_drop]

/-! ## Nonlinearity selection (`__init__` of every model class)

`ShootingBlock`, `ShootingBlock2`, `ShootingBlockMN`, `ShootingBlockMNModel1`
and `ShootingBlockMNModel2` contain the identical selection logic, embedded
once below; `ShootingModel_1.__init__` differs and is embedded separately.
The python functions bound to `self.nl` / `self.dnl` are represented by tags;
note the sigmoid branch binds `self.dnl = torch.sigmoid`: the sigmoid function
itself, not its derivative. -/

inductive Fn
  | reluF | dreluF | tanhF | dtanhF | identityF | didentityF | sigmoidF
  deriving DecidableEq

inductive NLError
  /-- `ValueError('Unsupported nonlinearity {}')` -/
  | unsupportedNonlinearity (name : String)
  /-- `ValueError('Unknown nonlinearity {}')` (the unreachable final `else`) -/
  | unknownNonlinearity (name : String)
  /-- a python `NameError`: the branch refers to a name the module never defines -/
  | nameError (name : String)
  deriving DecidableEq

deriving instance DecidableEq for Except

def supportedNonlinearities : List String :=
  ["identity", "relu", "tanh", "sigmoid"]

/-- `ShootingModel_1`'s `supported_nonlinearities` list additionally holds
`"softmax"`. -/
def m1SupportedNonlinearities : List String :=
  ["identity", "relu", "tanh", "sigmoid", "softmax"]

/-- `str.lower()`, modelled directly on the character list (kernel-reducible,
unlike `String.toLower`). -/
def lowerString (s : String) : String :=
  ⟨s.data.map Char.toLower⟩

/-- `use_nonlinearity`: `'identity'` when the argument is `None`, otherwise the
argument lower-cased. -/
def useNonlinearity (nonlinearity : Option String) : String :=
  match nonlinearity with
  | none => "identity"
  | some s => lowerString s

/-- The membership check and `if`/`elif` chain of `ShootingBlock.__init__`
(lines 395-411), acting on the already-computed `use_nonlinearity`. -/
def selectCore (use : String) : Except NLError (Fn × Fn) :=
  if use ∉ supportedNonlinearities then .error (.unsupportedNonlinearity use)
  else if use = "relu" then .ok (.reluF, .dreluF)
  else if use = "tanh" then .ok (.tanhF, .dtanhF)
  else if use = "identity" then .ok (.identityF, .didentityF)
  else if use = "sigmoid" then .ok (.sigmoidF, .sigmoidF)
  else .error (.unknownNonlinearity use)

def selectNonlinearity (nonlinearity : Option String) : Except NLError (Fn × Fn) :=
  selectCore (useNonlinearity nonlinearity)

/-- The `if`/`elif` chain of `ShootingModel_1.__init__`: same branches plus a
`softmax` branch, which executes `self.nl = softmax` — but no `softmax` (nor
`dsoftmax`) is defined anywhere in the module, so that branch raises a python
`NameError`. -/
def m1SelectCore (use : String) : Except NLError (Fn × Fn) :=
  if use ∉ m1SupportedNonlinearities then .error (.unsupportedNonlinearity use)
  else if use = "relu" then .ok (.reluF, .dreluF)
  else if use = "tanh" then .ok (.tanhF, .dtanhF)
  else if use = "identity" then .ok (.identityF, .didentityF)
  else if use = "sigmoid" then .ok (.sigmoidF, .sigmoidF)
  else if use = "softmax" then .error (.nameError "softmax")
  else .error (.unknownNonlinearity use)

/-- `ShootingModel_1.__init__` overwrites its `nonlinearity` argument with the
literal `'softmax'` (line 705) before any of the selection logic runs, so the
caller's choice never reaches the chain. -/
def m1SelectNonlinearity (nonlinearity : Option String) : Except NLError (Fn × Fn) :=
  m1SelectCore (useNonlinearity (some "softmax"))

lemma selectCore_mem {u : String} (h : u ∈ supportedNonlinearities) :
    ∃ c, selectCore u = .ok c := by
  simp only [supportedNonlinearities, List.mem_cons, List.not_mem_nil, or_false] at h
  rcases h with rfl | rfl | rfl | rfl
  · exact ⟨(.identityF, .didentityF), rfl⟩
  · exact ⟨(.reluF, .dreluF), rfl⟩
  · exact ⟨(.tanhF, .dtanhF), rfl⟩
  · exact ⟨(.sigmoidF, .sigmoidF), rfl⟩

lemma selectCore_not_mem {u : String} (h : u ∉ supportedNonlinearities) :
    selectCore u = .error (.unsupportedNonlinearity u) := by
  simp [selectCore, h]

/-! ## `ShootingBlock`: the closed-form parameter derivation engine

Tensors keep their singleton dimensions: `q_params`/`p_params` are
`K × 1 × d`, and inside the compute methods (after `transpose(1,2)`) the
particle blocks are `K × d × 1` column vectors.  `Kbar` is indexed by
`Fin d × Fin d` (the row-major flattening of `view(-1,1)`), `Kbar_b` by
`Fin d`.  `ShootingBlock2` and `ShootingBlockMN` contain character-for-
character the same `compute_theta`, `compute_bias` and `get_norm_penalty`;
the definitions below embed all three. -/

def transpose12 {K a b : ℕ} (A : Fin K → Fin a → Fin b → ℚ) :
    Fin K → Fin b → Fin a → ℚ :=
  fun k i j => A k j i

/-- `ShootingBlock.compute_theta`:
`temp = -torch.bmm(p, self.nl(q.transpose(1, 2))).mean(dim=0)` followed by
`theta = (torch.mm(self.Kbar, temp.view(-1,1))).view(temp.size())`.
`torch.bmm` of the `K × d × 1` momenta with the `K × 1 × d` activated
positions sums over the middle `Fin 1` index. -/
def computeTheta {K d : ℕ} (σ : ℚ → ℚ)
    (Kbar : Fin d × Fin d → Fin d × Fin d → ℚ)
    (q p : Fin K → Fin d → Fin 1 → ℚ) : Fin d → Fin d → ℚ :=
  let temp : Fin d → Fin d → ℚ :=
    fun i j => -((∑ k, ∑ u, p k i u * σ (transpose12 q k u j)) / (K : ℚ))
  fun i j => ∑ m, Kbar (i, j) m * temp m.1 m.2

/-- `ShootingBlock.compute_bias`: `temp = -p.mean(dim=0)` and
`bias = torch.mm(self.Kbar_b, temp)`, a `d × 1` column. -/
def computeBias {K d : ℕ} (KbarB : Fin d → Fin d → ℚ)
    (p : Fin K → Fin d → Fin 1 → ℚ) : Fin d → Fin 1 → ℚ :=
  let temp : Fin d → Fin 1 → ℚ := fun i u => -((∑ k, p k i u) / (K : ℚ))
  fun i u => ∑ j, KbarB i j * temp j u

/-- `ShootingBlock.get_norm_penalty`: transposes the stored parameters,
derives `theta`/`bias`, and returns the `1 × 1` tensor
`mm(theta.view(1,-1), mm(inv_Kbar, theta.view(-1,1)))
 + mm(bias.t(), mm(inv_Kbar_b, bias))`. -/
def getNormPenalty {K d : ℕ} (σ : ℚ → ℚ)
    (Kbar : Fin d × Fin d → Fin d × Fin d → ℚ) (KbarB : Fin d → Fin d → ℚ)
    (invKbar : Fin d × Fin d → Fin d × Fin d → ℚ) (invKbarB : Fin d → Fin d → ℚ)
    (qParams pParams : Fin K → Fin 1 → Fin d → ℚ) : Fin 1 → Fin 1 → ℚ :=
  let p := transpose12 pParams
  let q := transpose12 qParams
  let theta := computeTheta σ Kbar q p
  let bias := computeBias KbarB p
  let thetaPenalty : Fin 1 → Fin 1 → ℚ :=
    fun _ _ => ∑ m, theta m.1 m.2 * (∑ n, invKbar m n * theta n.1 n.2)
  let biasPenalty : Fin 1 → Fin 1 → ℚ :=
    fun u v => ∑ i, bias i u * (∑ j, invKbarB i j * bias j v)
  fun u v => thetaPenalty u v + biasPenalty u v

/-- The default regularizer: with `Kbar=None`, `__init__` sets
`self.Kbar = 1/mult_theta * torch.eye(d**2)` with `mult_theta = 1.0`, the
`d² × d²` identity (indexed here by pairs), and `self.inv_Kbar = Kbar.inverse()`
is again the identity. -/
def eyePairs (d : ℕ) : Fin d × Fin d → Fin d × Fin d → ℚ :=
  fun m n => if m = n then 1 else 0

/-- The default bias regularizer `torch.eye(d)` (its inverse is itself). -/
def eye (d : ℕ) : Fin d → Fin d → ℚ :=
  fun i j => if i = j then 1 else 0

/-! Spec-side formulations (claims C4, C5, written from the spec's words, to
be compared with the definitions embedded from the code). -/

/-- The outer product `p_k ⊗ σ(q_k)` of the k-th momentum column with the k-th
activated position column. -/
def outerPSigmaQ {K d : ℕ} (σ : ℚ → ℚ) (q p : Fin K → Fin d → Fin 1 → ℚ)
    (k : Fin K) : Fin d → Fin d → ℚ :=
  fun i j => p k i 0 * σ (q k j 0)

/-- The spec's raw cross term `T = -mean_k(p_k ⊗ σ(q_k))`. -/
def crossTermSpec {K d : ℕ} (σ : ℚ → ℚ) (q p : Fin K → Fin d → Fin 1 → ℚ) :
    Fin d → Fin d → ℚ :=
  fun i j => -((∑ k, outerPSigmaQ σ q p k i j) / (K : ℚ))

/-- The spec's `θ = Kbar · vec(T)`, reshaped back to `d × d`. -/
def thetaSpec {K d : ℕ} (σ : ℚ → ℚ) (Kbar : Fin d × Fin d → Fin d × Fin d → ℚ)
    (q p : Fin K → Fin d → Fin 1 → ℚ) : Fin d → Fin d → ℚ :=
  fun i j => ∑ m, Kbar (i, j) m * crossTermSpec σ q p m.1 m.2

/-- The spec's `b = Kbar_b · (-mean_k p_k)`. -/
def biasSpec {K d : ℕ} (KbarB : Fin d → Fin d → ℚ)
    (p : Fin K → Fin d → Fin 1 → ℚ) : Fin d → ℚ :=
  fun i => ∑ j, KbarB i j * (-((∑ k, p k j 0) / (K : ℚ)))

/-- The spec's quadratic penalty term `vec(θ)ᵗ · Kbar⁻¹ · vec(θ)`. -/
def quadTheta {d : ℕ} (invKbar : Fin d × Fin d → Fin d × Fin d → ℚ)
    (theta : Fin d → Fin d → ℚ) : ℚ :=
  ∑ m, ∑ n, theta m.1 m.2 * invKbar m n * theta n.1 n.2

/-- The spec's quadratic penalty term `bᵗ · Kbar_b⁻¹ · b`. -/
def quadBias {d : ℕ} (invKbarB : Fin d → Fin d → ℚ)
    (bias : Fin d → Fin 1 → ℚ) : ℚ :=
  ∑ i, ∑ j, bias i 0 * invKbarB i j * bias j 0

/-- `ShootingBlockMNModel2.get_norm_penalty`: transposes the stored (aliased)
parameters and returns the constant `0`. (`ShootingModel_1.get_norm_penalty`
and `ShootingBlockMNModel1.get_norm_penalty` likewise return `0`.) -/
def mn2GetNormPenalty {K d : ℕ} (qParams pParams : Fin K → Fin 1 → Fin d → ℚ) : ℚ :=
  let _p := transpose12 pParams
  let _q := transpose12 qParams
  0

lemma getNormPenalty_eq_quadratic {K d : ℕ} (σ : ℚ → ℚ)
    (Kbar : Fin d × Fin d → Fin d × Fin d → ℚ) (KbarB : Fin d → Fin d → ℚ)
    (invKbar : Fin d × Fin d → Fin d × Fin d → ℚ) (invKbarB : Fin d → Fin d → ℚ)
    (qParams pParams : Fin K → Fin 1 → Fin d → ℚ) (u v : Fin 1) :
    getNormPenalty σ Kbar KbarB invKbar invKbarB qParams pParams u v =
      quadTheta invKbar (computeTheta σ Kbar (transpose12 qParams) (transpose12 pParams)) +
      quadBias invKbarB (computeBias KbarB (transpose12 pParams)) := by
  have hu : u = 0 := Subsingleton.elim u 0
  have hv : v = 0 := Subsingleton.elim v 0
  subst hu hv
  simp only [getNormPenalty, quadTheta, quadBias, Finset.mul_sum, mul_assoc]

lemma quadTheta_eye {d : ℕ} (theta : Fin d → Fin d → ℚ) :
    quadTheta (eyePairs d) theta = ∑ m : Fin d × Fin d, theta m.1 m.2 * theta m.1 m.2 := by
  simp [quadTheta, eyePairs, mul_ite, ite_mul, Finset.sum_ite_eq]

lemma quadBias_eye {d : ℕ} (bias : Fin d → Fin 1 → ℚ) :
    quadBias (eye d) bias = ∑ i, bias i 0 * bias i 0 := by
  simp [quadBias, eye, mul_ite, ite_mul, Finset.sum_ite_eq]

/-! ## The MN-family models: inner fixed-point solves

`ShootingBlockMN`, `ShootingBlockMNModel1` and `ShootingBlockMNModel2` derive
their parameters by gradient descent on a Lagrangian, starting from a fresh
`torch.randn` initialisation at every call; the initialisation is an explicit
argument here.  All three hard-code the feature dimension 2
(`torch.randn(2,2)`), so the embedding fixes `d = 2`.  A `K × 2 × 1` column
block is represented as `Fin K → Fin 2 → ℚ` (the trailing singleton dimension
dropped; the `transpose(1,2)` between the state's `K × 1 × 2` rows and these
columns is the canonical reindexing and is absorbed by the representation).
`torch.autograd.grad` of the Lagrangians is embedded by hand-computed partial
derivatives: the quadratic form `mm(v.view(1,-1), mm(M, v.view(-1,1)))`
contributes `½·(M + Mᵀ)·vec` to the gradient of the half-scaled kinetic
energy, and `torch.mean` over a `K × 2 × 1` block divides by `2·K`. -/

/-- The quadratic form `torch.mm(th.view(1,-1), torch.mm(M, th.view(-1,1)))`
on a flattened `2 × 2` matrix, as it appears in the Lagrangians. -/
def vecQuad (M : Fin 2 × Fin 2 → Fin 2 × Fin 2 → ℚ) (th : Fin 2 → Fin 2 → ℚ) : ℚ :=
  ∑ m, th m.1 m.2 * (∑ n, M m n * th n.1 n.2)

/-- The quadratic form `torch.mm(b.t(), torch.mm(Mb, b))` on a `2 × 1` column. -/
def vecQuadB (Mb : Fin 2 → Fin 2 → ℚ) (b : Fin 2 → ℚ) : ℚ :=
  ∑ i, b i * (∑ j, Mb i j * b j)

/-- `advect_q` of `ShootingBlockMN`/`ShootingBlock2`, and `advect_q1` /
`advect_x1` of `ShootingBlockMNModel2`: `θ·σ(q) + b` per column. -/
def advectQ1 {n : ℕ} (σ : ℚ → ℚ) (theta : Fin 2 → Fin 2 → ℚ) (bias : Fin 2 → ℚ)
    (q : Fin n → Fin 2 → ℚ) : Fin n → Fin 2 → ℚ :=
  fun k i => (∑ j, theta i j * σ (q k j)) + bias i

/-- `advect_q2` / `advect_x2` of `ShootingBlockMNModel2`: the same with the
identity in place of the nonlinearity (`temp_q = q  # use the identity here`). -/
def advectQ2 {n : ℕ} (theta : Fin 2 → Fin 2 → ℚ) (bias : Fin 2 → ℚ)
    (q : Fin n → Fin 2 → ℚ) : Fin n → Fin 2 → ℚ :=
  fun k i => (∑ j, theta i j * q k j) + bias i

/-! ### `ShootingBlockMN` -/

/-- The inner optimisation variables `(theta, bias)` of
`ShootingBlockMN.compute_gradients`. -/
@[ext] structure MNParams where
  theta : Fin 2 → Fin 2 → ℚ
  bias : Fin 2 → ℚ

/-- `ShootingBlockMN.compute_lagrangian`:
`L = ½·(θᵗ·inv_Kbar·θ + bᵗ·inv_Kbar_b·b) − mean(p ⊙ advect_q(q,θ,b))`. -/
def mnLagrangian {K : ℕ} (σ : ℚ → ℚ) (iK : Fin 2 × Fin 2 → Fin 2 × Fin 2 → ℚ)
    (iKb : Fin 2 → Fin 2 → ℚ) (p q : Fin K → Fin 2 → ℚ) (P : MNParams) : ℚ :=
  (1 / 2) * (vecQuad iK P.theta + vecQuadB iKb P.bias) -
    (∑ k, ∑ i, p k i * advectQ1 σ P.theta P.bias q k i) / (2 * K)

/-- One iteration of `ShootingBlockMN.compute_gradients`' loop:
`theta_grad, bias_grad = autograd.grad(L, (theta, bias))` (partial derivatives
of `mnLagrangian`, hand-computed) followed by `theta = theta - theta_grad`,
`bias = bias - bias_grad` (no learning-rate factor in this variant). -/
def mnGdStep {K : ℕ} (σ : ℚ → ℚ) (iK : Fin 2 × Fin 2 → Fin 2 × Fin 2 → ℚ)
    (iKb : Fin 2 → Fin 2 → ℚ) (p q : Fin K → Fin 2 → ℚ) (P : MNParams) : MNParams :=
  let gTheta : Fin 2 → Fin 2 → ℚ := fun i j =>
    (1 / 2) * (∑ m, (iK (i, j) m + iK m (i, j)) * P.theta m.1 m.2) -
      (∑ k, p k i * σ (q k j)) / (2 * K)
  let gBias : Fin 2 → ℚ := fun i =>
    (1 / 2) * (∑ a, (iKb i a + iKb a i) * P.bias a) - (∑ k, p k i) / (2 * K)
  ⟨fun i j => P.theta i j - gTheta i j, fun i => P.bias i - gBias i⟩

/-- `nr_of_fixed_point_iterations = 5` in `ShootingBlockMN.compute_gradients`. -/
def mnIterationCount : ℕ := 5

/-- The fixed-point loop `for n in range(nr_of_fixed_point_iterations)`. -/
def mnFinalParams {K : ℕ} (σ : ℚ → ℚ) (iK : Fin 2 × Fin 2 → Fin 2 × Fin 2 → ℚ)
    (iKb : Fin 2 → Fin 2 → ℚ) (p q : Fin K → Fin 2 → ℚ) (init : MNParams) : MNParams :=
  (List.range mnIterationCount).foldl (fun s _ => mnGdStep σ iK iKb p q s) init

/-- The tail of `ShootingBlockMN.compute_gradients` after the loop, at the
final iterate: `dot_p = autograd.grad(L, q)` (the hand-computed partial
`∂L/∂q[k][j] = -σ'(q_kj)·(θᵗp_k)_j / (2K)`, `σ'` being the autograd
derivative of the configured nonlinearity), `dot_x = advect_x(x, θ, b)` and
`dot_q = advect_q(q, θ, b)`, returned as `(dot_x, dot_p, dot_q)`. -/
def mnPostOutputs {K B : ℕ} (σ dσ : ℚ → ℚ)
    (x : Fin B → Fin 2 → ℚ) (p q : Fin K → Fin 2 → ℚ) (F : MNParams) :
    (Fin B → Fin 2 → ℚ) × (Fin K → Fin 2 → ℚ) × (Fin K → Fin 2 → ℚ) :=
  let dotP : Fin K → Fin 2 → ℚ := fun k j =>
    -(dσ (q k j) * (∑ i, p k i * F.theta i j) / (2 * K))
  (advectQ1 σ F.theta F.bias x, dotP, advectQ1 σ F.theta F.bias q)

/-- `ShootingBlockMN.compute_gradients(x, p, q, old_theta, old_bias)` (the
`old_*` arguments are unused by the source): the loop, then the outputs. -/
def mnComputeGradients {K B : ℕ} (σ dσ : ℚ → ℚ)
    (iK : Fin 2 × Fin 2 → Fin 2 × Fin 2 → ℚ) (iKb : Fin 2 → Fin 2 → ℚ)
    (x : Fin B → Fin 2 → ℚ) (p q : Fin K → Fin 2 → ℚ) (init : MNParams) :
    (Fin B → Fin 2 → ℚ) × (Fin K → Fin 2 → ℚ) × (Fin K → Fin 2 → ℚ) :=
  mnPostOutputs σ dσ x p q (mnFinalParams σ iK iKb p q init)

/-! ### `ShootingBlockMNModel1` -/

/-- The inner optimisation variables of
`ShootingBlockMNModel1.compute_gradients`. -/
@[ext] structure M1Params where
  theta1 : Fin 2 → Fin 2 → ℚ
  bias1 : Fin 2 → ℚ
  theta2 : Fin 2 → Fin 2 → ℚ
  bias2 : Fin 2 → ℚ

/-- The inner affine layer `θ2·q + b2` of `ShootingBlockMNModel1.advect_q`. -/
def m1Inner {K : ℕ} (theta2 : Fin 2 → Fin 2 → ℚ) (bias2 : Fin 2 → ℚ)
    (q : Fin K → Fin 2 → ℚ) : Fin K → Fin 2 → ℚ :=
  fun k a => (∑ m, theta2 a m * q k m) + bias2 a

/-- `ShootingBlockMNModel1.advect_q` (and `advect_x`): the two-layer
composition `θ1·σ(θ2·q + b2) + b1`. -/
def m1Advect {K : ℕ} (σ : ℚ → ℚ) (theta1 : Fin 2 → Fin 2 → ℚ) (bias1 : Fin 2 → ℚ)
    (theta2 : Fin 2 → Fin 2 → ℚ) (bias2 : Fin 2 → ℚ)
    (q : Fin K → Fin 2 → ℚ) : Fin K → Fin 2 → ℚ :=
  fun k i => (∑ j, theta1 i j * σ (m1Inner theta2 bias2 q k j)) + bias1 i

/-- `ShootingBlockMNModel1.compute_lagrangian`: `theta2` is penalised for its
deviation from `torch.eye(2)`; the other three parameters from zero. -/
def m1Lagrangian {K : ℕ} (σ : ℚ → ℚ) (iK : Fin 2 × Fin 2 → Fin 2 × Fin 2 → ℚ)
    (iKb : Fin 2 → Fin 2 → ℚ) (p q : Fin K → Fin 2 → ℚ) (P : M1Params) : ℚ :=
  (1 / 2) * (vecQuad iK P.theta1 +
      vecQuad iK (fun i j => P.theta2 i j - eye 2 i j) +
      vecQuadB iKb P.bias1 + vecQuadB iKb P.bias2) -
    (∑ k, ∑ i, p k i * m1Advect σ P.theta1 P.bias1 P.theta2 P.bias2 q k i) / (2 * K)

/-- `learning_rate = 0.25` in `ShootingBlockMNModel1.compute_gradients`. -/
def m1LearningRate : ℚ := 1 / 4

/-- `nr_of_fixed_point_iterations = 20` in
`ShootingBlockMNModel1.compute_gradients`. -/
def m1IterationCount : ℕ := 20

/-- One iteration of `ShootingBlockMNModel1.compute_gradients`' loop (the
taken `compute_simple_gradient_descent = True` branch): the four gradients
`autograd.grad(L, (theta1, bias1, theta2, bias2))` (hand-computed partials of
`m1Lagrangian`; `z = θ2·q + b2`, `σ'` the autograd derivative of `σ`),
followed by the simultaneous update `v = v - learning_rate * v_grad`. -/
def m1GdStep {K : ℕ} (σ dσ : ℚ → ℚ) (iK : Fin 2 × Fin 2 → Fin 2 × Fin 2 → ℚ)
    (iKb : Fin 2 → Fin 2 → ℚ) (p q : Fin K → Fin 2 → ℚ) (P : M1Params) : M1Params :=
  let z := m1Inner P.theta2 P.bias2 q
  let tTp : Fin K → Fin 2 → ℚ := fun k a => ∑ i, p k i * P.theta1 i a
  let gTheta1 : Fin 2 → Fin 2 → ℚ := fun i j =>
    (1 / 2) * (∑ m, (iK (i, j) m + iK m (i, j)) * P.theta1 m.1 m.2) -
      (∑ k, p k i * σ (z k j)) / (2 * K)
  let gBias1 : Fin 2 → ℚ := fun i =>
    (1 / 2) * (∑ a, (iKb i a + iKb a i) * P.bias1 a) - (∑ k, p k i) / (2 * K)
  let gTheta2 : Fin 2 → Fin 2 → ℚ := fun a b =>
    (1 / 2) * (∑ m, (iK (a, b) m + iK m (a, b)) * (P.theta2 m.1 m.2 - eye 2 m.1 m.2)) -
      (∑ k, tTp k a * dσ (z k a) * q k b) / (2 * K)
  let gBias2 : Fin 2 → ℚ := fun a =>
    (1 / 2) * (∑ c, (iKb a c + iKb c a) * P.bias2 c) -
      (∑ k, tTp k a * dσ (z k a)) / (2 * K)
  ⟨fun i j => P.theta1 i j - m1LearningRate * gTheta1 i j,
   fun i => P.bias1 i - m1LearningRate * gBias1 i,
   fun a b => P.theta2 a b - m1LearningRate * gTheta2 a b,
   fun a => P.bias2 a - m1LearningRate * gBias2 a⟩

/-- The fixed-point loop of `ShootingBlockMNModel1.compute_gradients`. -/
def m1FinalParams {K : ℕ} (σ dσ : ℚ → ℚ) (iK : Fin 2 × Fin 2 → Fin 2 × Fin 2 → ℚ)
    (iKb : Fin 2 → Fin 2 → ℚ) (p q : Fin K → Fin 2 → ℚ) (init : M1Params) : M1Params :=
  (List.range m1IterationCount).foldl (fun s _ => m1GdStep σ dσ iK iKb p q s) init

/-- The tail of `ShootingBlockMNModel1.compute_gradients`:
`dot_p = autograd.grad(L, q)` at the final iterate (hand-computed partial:
`∂L/∂q[k][j] = -Σ_a (θ1ᵗp_k)_a·σ'(z_ka)·θ2[a][j] / (2K)`), then
`dot_x = advect_x(x, ...)`, `dot_q = advect_q(q, ...)`, returned as
`(dot_x, dot_p, dot_q)`. -/
def m1PostOutputs {K B : ℕ} (σ dσ : ℚ → ℚ)
    (x : Fin B → Fin 2 → ℚ) (p q : Fin K → Fin 2 → ℚ) (F : M1Params) :
    (Fin B → Fin 2 → ℚ) × (Fin K → Fin 2 → ℚ) × (Fin K → Fin 2 → ℚ) :=
  let z := m1Inner F.theta2 F.bias2 q
  let dotP : Fin K → Fin 2 → ℚ := fun k j =>
    -((∑ a, (∑ i, p k i * F.theta1 i a) * dσ (z k a) * F.theta2 a j) / (2 * K))
  (m1Advect σ F.theta1 F.bias1 F.theta2 F.bias2 x, dotP,
   m1Advect σ F.theta1 F.bias1 F.theta2 F.bias2 q)

/-- `ShootingBlockMNModel1.compute_gradients(x, p, q)`. -/
def m1ComputeGradients {K B : ℕ} (σ dσ : ℚ → ℚ)
    (iK : Fin 2 × Fin 2 → Fin 2 × Fin 2 → ℚ) (iKb : Fin 2 → Fin 2 → ℚ)
    (x : Fin B → Fin 2 → ℚ) (p q : Fin K → Fin 2 → ℚ) (init : M1Params) :
    (Fin B → Fin 2 → ℚ) × (Fin K → Fin 2 → ℚ) × (Fin K → Fin 2 → ℚ) :=
  m1PostOutputs σ dσ x p q (m1FinalParams σ dσ iK iKb p q init)

/-! ### `ShootingBlockMNModel2` -/

/-- The inner optimisation variables of
`ShootingBlockMNModel2.compute_gradients`. -/
@[ext] structure MN2Params where
  theta1 : Fin 2 → Fin 2 → ℚ
  bias1 : Fin 2 → ℚ
  theta2 : Fin 2 → Fin 2 → ℚ
  bias2 : Fin 2 → ℚ

/-- `ShootingBlockMNModel2.compute_lagrangian`: kinetic energy over the four
parameters, potential energy
`mean(p1 ⊙ advect_q1(q2,θ1,b1)) + mean(p2 ⊙ advect_q2(q1,θ2,b2))` —
each particle set is advected by the parameters coupled to the *other* set. -/
def mn2Lagrangian {K : ℕ} (σ : ℚ → ℚ) (iK : Fin 2 × Fin 2 → Fin 2 × Fin 2 → ℚ)
    (iKb : Fin 2 → Fin 2 → ℚ) (p1 q1 p2 q2 : Fin K → Fin 2 → ℚ) (P : MN2Params) : ℚ :=
  (1 / 2) * (vecQuad iK P.theta1 + vecQuad iK P.theta2 +
      vecQuadB iKb P.bias1 + vecQuadB iKb P.bias2) -
    ((∑ k, ∑ i, p1 k i * advectQ1 σ P.theta1 P.bias1 q2 k i) / (2 * K) +
     (∑ k, ∑ i, p2 k i * advectQ2 P.theta2 P.bias2 q1 k i) / (2 * K))

/-- `learning_rate = 0.5` in `ShootingBlockMNModel2.compute_gradients`. -/
def mn2LearningRate : ℚ := 1 / 2

/-- `nr_of_fixed_point_iterations = 5` in
`ShootingBlockMNModel2.compute_gradients`. -/
def mn2IterationCount : ℕ := 5

/-- One iteration of `ShootingBlockMNModel2.compute_gradients`' loop: the four
gradients `autograd.grad(L, (theta1, bias1, theta2, bias2))` of
`mn2Lagrangian` (hand-computed partials; `advect_q2` contains no nonlinearity,
so no `σ'` appears), then the simultaneous update
`v = v - learning_rate * v_grad`. -/
def mn2GdStep {K : ℕ} (σ : ℚ → ℚ) (iK : Fin 2 × Fin 2 → Fin 2 × Fin 2 → ℚ)
    (iKb : Fin 2 → Fin 2 → ℚ) (p1 q1 p2 q2 : Fin K → Fin 2 → ℚ) (P : MN2Params) :
    MN2Params :=
  let gTheta1 : Fin 2 → Fin 2 → ℚ := fun i j =>
    (1 / 2) * (∑ m, (iK (i, j) m + iK m (i, j)) * P.theta1 m.1 m.2) -
      (∑ k, p1 k i * σ (q2 k j)) / (2 * K)
  let gBias1 : Fin 2 → ℚ := fun i =>
    (1 / 2) * (∑ a, (iKb i a + iKb a i) * P.bias1 a) - (∑ k, p1 k i) / (2 * K)
  let gTheta2 : Fin 2 → Fin 2 → ℚ := fun i j =>
    (1 / 2) * (∑ m, (iK (i, j) m + iK m (i, j)) * P.theta2 m.1 m.2) -
      (∑ k, p2 k i * q1 k j) / (2 * K)
  let gBias2 : Fin 2 → ℚ := fun i =>
    (1 / 2) * (∑ a, (iKb i a + iKb a i) * P.bias2 a) - (∑ k, p2 k i) / (2 * K)
  ⟨fun i j => P.theta1 i j - mn2LearningRate * gTheta1 i j,
   fun i => P.bias1 i - mn2LearningRate * gBias1 i,
   fun i j => P.theta2 i j - mn2LearningRate * gTheta2 i j,
   fun i => P.bias2 i - mn2LearningRate * gBias2 i⟩

/-- The fixed-point loop of `ShootingBlockMNModel2.compute_gradients`. -/
def mn2FinalParams {K : ℕ} (σ : ℚ → ℚ) (iK : Fin 2 × Fin 2 → Fin 2 × Fin 2 → ℚ)
    (iKb : Fin 2 → Fin 2 → ℚ) (p1 q1 p2 q2 : Fin K → Fin 2 → ℚ) (init : MN2Params) :
    MN2Params :=
  (List.range mn2IterationCount).foldl
    (fun s _ => mn2GdStep σ iK iKb p1 q1 p2 q2 s) init

/-- The tail of `ShootingBlockMNModel2.compute_gradients`:
`dot_p1, dot_p2 = autograd.grad(L, (q1, q2))` at the final iterate
(hand-computed partials: `∂L/∂q1[k][j] = -(θ2ᵗp2_k)_j/(2K)` through the
linear `advect_q2`, `∂L/∂q2[k][j] = -σ'(q2_kj)·(θ1ᵗp1_k)_j/(2K)` through
`advect_q1`), then `dot_x1 = advect_x1(x2,θ1,b1)`, `dot_x2 = advect_x2(x1,θ2,b2)`,
`dot_q1 = advect_q1(q2,θ1,b1)`, `dot_q2 = advect_q2(q1,θ2,b2)`, returned in
the source's order `(dot_x1, dot_x2, dot_p1, dot_q1, dot_p2, dot_q2)`. -/
def mn2PostOutputs {K B : ℕ} (σ dσ : ℚ → ℚ)
    (x1 x2 : Fin B → Fin 2 → ℚ) (p1 q1 p2 q2 : Fin K → Fin 2 → ℚ) (F : MN2Params) :
    (Fin B → Fin 2 → ℚ) × (Fin B → Fin 2 → ℚ) × (Fin K → Fin 2 → ℚ) ×
      (Fin K → Fin 2 → ℚ) × (Fin K → Fin 2 → ℚ) × (Fin K → Fin 2 → ℚ) :=
  let dotP1 : Fin K → Fin 2 → ℚ := fun k j => -((∑ i, p2 k i * F.theta2 i j) / (2 * K))
  let dotP2 : Fin K → Fin 2 → ℚ := fun k j =>
    -(dσ (q2 k j) * (∑ i, p1 k i * F.theta1 i j) / (2 * K))
  let dotX1 := advectQ1 σ F.theta1 F.bias1 x2
  let dotX2 := advectQ2 F.theta2 F.bias2 x1
  let dotQ1 := advectQ1 σ F.theta1 F.bias1 q2
  let dotQ2 := advectQ2 F.theta2 F.bias2 q1
  (dotX1, dotX2, dotP1, dotQ1, dotP2, dotQ2)

/-- `ShootingBlockMNModel2.compute_gradients(x1, x2, p1, q1, p2, q2)`. -/
def mn2ComputeGradients {K B : ℕ} (σ dσ : ℚ → ℚ)
    (iK : Fin 2 × Fin 2 → Fin 2 × Fin 2 → ℚ) (iKb : Fin 2 → Fin 2 → ℚ)
    (x1 x2 : Fin B → Fin 2 → ℚ) (p1 q1 p2 q2 : Fin K → Fin 2 → ℚ) (init : MN2Params) :
    (Fin B → Fin 2 → ℚ) × (Fin B → Fin 2 → ℚ) × (Fin K → Fin 2 → ℚ) ×
      (Fin K → Fin 2 → ℚ) × (Fin K → Fin 2 → ℚ) × (Fin K → Fin 2 → ℚ) :=
  mn2PostOutputs σ dσ x1 x2 p1 q1 p2 q2 (mn2FinalParams σ iK iKb p1 q1 p2 q2 init)

/-- The six named blocks of the `ShootingBlockMNModel2` flat state (leading
size `4K + 2B`); `assemble`/`disassemble` (see the codec above) map between
this and the flat layout. -/
@[ext] structure MN2State (K B : ℕ) where
  q1 : Fin K → Fin 2 → ℚ
  q2 : Fin K → Fin 2 → ℚ
  p1 : Fin K → Fin 2 → ℚ
  p2 : Fin K → Fin 2 → ℚ
  x1 : Fin B → Fin 2 → ℚ
  x2 : Fin B → Fin 2 → ℚ

/-- `ShootingBlockMNModel2.forward(t, input)`: disassembles the state,
transposes each block to columns, calls
`compute_gradients(x1=x1, x2=x2, p1=p1, p2=p2, q1=q1, q2=q2)`, transposes
back and assembles `(q1=dot_q1t, q2=dot_q2t, p1=dot_p1t, p2=dot_p2t,
x1=dot_x1t, x2=dot_x2t)`.  The destructuring in the source is
`dot_x1,dot_x2,dot_p1,dot_p2,dot_q1,dot_q2 = self.compute_gradients(...)` —
positional, and reproduced positionally here against `compute_gradients`'
return order `(dot_x1, dot_x2, dot_p1, dot_q1, dot_p2, dot_q2)`. -/
def mn2Forward {K B : ℕ} (σ dσ : ℚ → ℚ)
    (iK : Fin 2 × Fin 2 → Fin 2 × Fin 2 → ℚ) (iKb : Fin 2 → Fin 2 → ℚ)
    (init : MN2Params) (s : MN2State K B) : MN2State K B :=
  match mn2ComputeGradients σ dσ iK iKb s.x1 s.x2 s.p1 s.q1 s.p2 s.q2 init with
  | (dotX1, dotX2, dotP1, dotP2, dotQ1, dotQ2) =>
    ⟨dotQ1, dotQ2, dotP1, dotP2, dotX1, dotX2⟩

/-- `ShootingBlock.forward(t, input)` (the closed-form single-particle-set
variant): splits the state rows into `(q, p, x)`, transposes to columns,
derives `theta`/`bias` in closed form, and returns
`torch.cat((dot_q.transpose(1,2), dot_p.transpose(1,2), dot_x.transpose(1,2)))`,
here as the block triple.  `dot_p = -dnl(q) ⊙ (θᵗ·p)` uses the configured
`dnl` tag's function, passed as `dσ`. -/
def sbForward {K B d : ℕ} (σ dσ : ℚ → ℚ)
    (Kbar : Fin d × Fin d → Fin d × Fin d → ℚ) (KbarB : Fin d → Fin d → ℚ)
    (qt pt : Fin K → Fin 1 → Fin d → ℚ) (xt : Fin B → Fin 1 → Fin d → ℚ) :
    (Fin K → Fin 1 → Fin d → ℚ) × (Fin K → Fin 1 → Fin d → ℚ) ×
      (Fin B → Fin 1 → Fin d → ℚ) :=
  let q := transpose12 qt
  let p := transpose12 pt
  let x := transpose12 xt
  let theta := computeTheta σ Kbar q p
  let bias := computeBias KbarB p
  let dotX : Fin B → Fin d → Fin 1 → ℚ :=
    fun b i u => (∑ j, theta i j * σ (x b j u)) + bias i u
  let dotQ : Fin K → Fin d → Fin 1 → ℚ :=
    fun k i u => (∑ j, theta i j * σ (q k j u)) + bias i u
  let dotP : Fin K → Fin d → Fin 1 → ℚ :=
    fun k j u => -(dσ (q k j u)) * (∑ i, theta i j * p k i u)
  (transpose12 dotQ, transpose12 dotP, transpose12 dotX)

/-- `ShootingBlock.forward` also executes `self._number_of_calls += 1` (used
only to occasionally print); the counter is modelled as explicit state passed
in and returned updated alongside the output. -/
def sbForwardCounted {K B d : ℕ} (nCalls : ℕ) (σ dσ : ℚ → ℚ)
    (Kbar : Fin d × Fin d → Fin d × Fin d → ℚ) (KbarB : Fin d → Fin d → ℚ)
    (qt pt : Fin K → Fin 1 → Fin d → ℚ) (xt : Fin B → Fin 1 → Fin d → ℚ) :
    ℕ × ((Fin K → Fin 1 → Fin d → ℚ) × (Fin K → Fin 1 → Fin d → ℚ) ×
      (Fin B → Fin 1 → Fin d → ℚ)) :=
  (nCalls + 1, sbForward σ dσ Kbar KbarB qt pt xt)

/-! ### Concrete instances for the `ShootingBlockMNModel2` evaluations

A one-particle (`K = 1`), one-sample (`B = 1`) model with the identity
nonlinearity (autograd derivative constantly `1`) and the default identity
regularizers.  With these inputs every gradient-descent iterate is of the
single-scalar shape `tabMN2 v`, which makes the five iterations tractable. -/

def p1c : Fin 1 → Fin 2 → ℚ := fun _ j => if j = 0 then 1 else 0
def q1c : Fin 1 → Fin 2 → ℚ := fun _ j => if j = 1 then 1 else 0
def p2c : Fin 1 → Fin 2 → ℚ := fun _ j => if j = 1 then 1 else 0
def q2c : Fin 1 → Fin 2 → ℚ := fun _ j => if j = 0 then 1 else 0
def x1c : Fin 1 → Fin 2 → ℚ := fun _ _ => 1
def x2c : Fin 1 → Fin 2 → ℚ := fun _ _ => 0

/-- The concrete test state. -/
def sC : MN2State 1 1 := ⟨q1c, q2c, p1c, p2c, x1c, x2c⟩

/-- The one-scalar family of parameter values traversed by the inner loop on
the concrete inputs: `theta1 = v·e₀₀`, `bias1 = (v,0)`, `theta2 = v·e₁₁`,
`bias2 = (0,v)`. -/
def tabMN2 (v : ℚ) : MN2Params :=
  ⟨fun i j => if i = 0 ∧ j = 0 then v else 0,
   fun i => if i = 0 then v else 0,
   fun i j => if i = 1 ∧ j = 1 then v else 0,
   fun i => if i = 1 then v else 0⟩

lemma foldl_range_const {α : Type} (f : α → α) :
    ∀ (n : ℕ) (i : α), (List.range n).foldl (fun s _ => f s) i = f^[n] i := by
  intro n
  induction n with
  | zero => intro i; rfl
  | succ n ih =>
      intro i
      rw [List.range_succ, List.foldl_append, ih, Function.iterate_succ_apply']
      simp [List.foldl]

lemma mn2GdStep_tab (v : ℚ) :
    mn2GdStep id (eyePairs 2) (eye 2) p1c q1c p2c q2c (tabMN2 v) =
      tabMN2 (v / 2 + 1 / 4) := by
  ext i j
  · fin_cases i <;> fin_cases j <;>
      simp [mn2GdStep, tabMN2, eyePairs, eye, mn2LearningRate, p1c, q1c, p2c, q2c,
        Fintype.sum_prod_type, Fin.sum_univ_succ] <;> ring
  · fin_cases i <;>
      simp [mn2GdStep, tabMN2, eyePairs, eye, mn2LearningRate, p1c, q1c, p2c, q2c,
        Fintype.sum_prod_type, Fin.sum_univ_succ] <;> ring
  · fin_cases i <;> fin_cases j <;>
      simp [mn2GdStep, tabMN2, eyePairs, eye, mn2LearningRate, p1c, q1c, p2c, q2c,
        Fintype.sum_prod_type, Fin.sum_univ_succ] <;> ring
  · fin_cases i <;>
      simp [mn2GdStep, tabMN2, eyePairs, eye, mn2LearningRate, p1c, q1c, p2c, q2c,
        Fintype.sum_prod_type, Fin.sum_univ_succ] <;> ring

lemma mn2FinalParams_tab (v : ℚ) :
    mn2FinalParams id (eyePairs 2) (eye 2) p1c q1c p2c q2c (tabMN2 v) =
      tabMN2 (((((v / 2 + 1 / 4) / 2 + 1 / 4) / 2 + 1 / 4) / 2 + 1 / 4) / 2 + 1 / 4) := by
  rw [mn2FinalParams, show List.range mn2IterationCount = [0, 1, 2, 3, 4] from rfl]
  simp only [List.foldl_cons, List.foldl_nil, mn2GdStep_tab]

/-- `mn2Forward`, spelled out: the match against `compute_gradients`' return
tuple binds positionally, so the output's `q1` slot receives the co-state
value `dot_p2` (position 5 of the return) and the `p2` slot receives the
advection value `dot_q1` (position 4); `q2`, `p1`, `x1`, `x2` are aligned. -/
lemma mn2Forward_eq {K B : ℕ} (σ dσ : ℚ → ℚ)
    (iK : Fin 2 × Fin 2 → Fin 2 × Fin 2 → ℚ) (iKb : Fin 2 → Fin 2 → ℚ)
    (init : MN2Params) (s : MN2State K B) :
    mn2Forward σ dσ iK iKb init s =
      ⟨fun k j => -(dσ (s.q2 k j) *
          (∑ i, s.p1 k i *
            (mn2FinalParams σ iK iKb s.p1 s.q1 s.p2 s.q2 init).theta1 i j) / (2 * K)),
       advectQ2 (mn2FinalParams σ iK iKb s.p1 s.q1 s.p2 s.q2 init).theta2
         (mn2FinalParams σ iK iKb s.p1 s.q1 s.p2 s.q2 init).bias2 s.q1,
       fun k j => -((∑ i, s.p2 k i *
           (mn2FinalParams σ iK iKb s.p1 s.q1 s.p2 s.q2 init).theta2 i j) / (2 * K)),
       advectQ1 σ (mn2FinalParams σ iK iKb s.p1 s.q1 s.p2 s.q2 init).theta1
         (mn2FinalParams σ iK iKb s.p1 s.q1 s.p2 s.q2 init).bias1 s.q2,
       advectQ1 σ (mn2FinalParams σ iK iKb s.p1 s.q1 s.p2 s.q2 init).theta1
         (mn2FinalParams σ iK iKb s.p1 s.q1 s.p2 s.q2 init).bias1 s.x2,
       advectQ2 (mn2FinalParams σ iK iKb s.p1 s.q1 s.p2 s.q2 init).theta2
         (mn2FinalParams σ iK iKb s.p1 s.q1 s.p2 s.q2 init).bias2 s.x1⟩ := rfl

lemma mn2FinalParams_tab0 :
    mn2FinalParams id (eyePairs 2) (eye 2) p1c q1c p2c q2c (tabMN2 0) =
      tabMN2 (31 / 64) := by
  rw [mn2FinalParams_tab]; norm_num

lemma mn2FinalParams_tab1 :
    mn2FinalParams id (eyePairs 2) (eye 2) p1c q1c p2c q2c (tabMN2 1) =
      tabMN2 (33 / 64) := by
  rw [mn2FinalParams_tab]; norm_num

/-- Two forward calls on the same state but different random draws of the
inner initialisation give different outputs (they differ in the `q2` slot). -/
lemma mn2Forward_tab0_ne_tab1 :
    mn2Forward id (fun _ => 1) (eyePairs 2) (eye 2) (tabMN2 0) sC ≠
      mn2Forward id (fun _ => 1) (eyePairs 2) (eye 2) (tabMN2 1) sC := by
  intro h
  have h2 := congrFun (congrFun (congrArg MN2State.q2 h) 0) 1
  rw [mn2Forward_eq, mn2Forward_eq] at h2
  simp only [sC, mn2FinalParams_tab0, mn2FinalParams_tab1] at h2
  simp [advectQ2, tabMN2, q1c, Fin.sum_univ_succ] at h2
  norm_num at h2

/-! ## Co-state computation over ℝ (`dot_p`, claim C3)

`ShootingBlock.forward` computes the explicit closed form
`dot_p = -dnl(q) ⊙ (θᵗ·p)` with the configured derivative function `dnl`
(for the sigmoid choice the source binds `self.dnl = torch.sigmoid`, the
sigmoid itself); `ShootingBlock2.advect_p` instead computes
`-autograd.grad(torch.sum(p * advect_q(q, theta, bias)), q)`.  The autograd
gradient is the exact partial derivative, modelled with `deriv` along one
coordinate.  These live over ℝ since the sigmoid is transcendental. -/

noncomputable def sigmoidFn (x : ℝ) : ℝ := 1 / (1 + Real.exp (-x))

/-- `ShootingBlock.forward`'s closed form: `tTp = matmul(theta.t(), p)`;
`sigma_p = self.dnl(q)`; `dot_p = -sigma_p * tTp`. -/
def dotPClosed {K d : ℕ} (dnl : ℝ → ℝ) (theta : Fin d → Fin d → ℝ)
    (p q : Fin K → Fin d → ℝ) : Fin K → Fin d → ℝ :=
  fun k j => -(dnl (q k j)) * (∑ i, theta i j * p k i)

/-- `compute = torch.sum(p * self.advect_q(q, theta, bias))` of
`ShootingBlock2.advect_p`, with `advect_q(q,θ,b) = θ·σ(q) + b`. -/
def advectPotential {K d : ℕ} (σ : ℝ → ℝ) (theta : Fin d → Fin d → ℝ)
    (bias : Fin d → ℝ) (p q : Fin K → Fin d → ℝ) : ℝ :=
  ∑ k, ∑ i, p k i * ((∑ j, theta i j * σ (q k j)) + bias i)

/-- The tensor `q` with its `(k, j)` entry replaced by `t` (the direction of a
single partial derivative). -/
def updateAt {K d : ℕ} (q : Fin K → Fin d → ℝ) (k : Fin K) (j : Fin d) (t : ℝ) :
    Fin K → Fin d → ℝ :=
  fun a b => if a = k ∧ b = j then t else q a b

/-- `ShootingBlock2.advect_p`: `xgrad, = autograd.grad(compute, q, ...)`
entry-wise (the exact partial derivative of `compute` in the `(k, j)`
coordinate of `q`), returned negated. -/
noncomputable def dotPAutograd {K d : ℕ} (σ : ℝ → ℝ) (theta : Fin d → Fin d → ℝ)
    (bias : Fin d → ℝ) (p q : Fin K → Fin d → ℝ) : Fin K → Fin d → ℝ :=
  fun k j => -(deriv (fun t => advectPotential σ theta bias p (updateAt q k j t)) (q k j))

lemma sigmoidFn_zero : sigmoidFn 0 = 1 / 2 := by
  simp [sigmoidFn, Real.exp_zero]
  norm_num

lemma hasDerivAt_sigmoidFn_zero : HasDerivAt sigmoidFn (1 / 4) 0 := by
  have h1 : HasDerivAt (fun x : ℝ => -x) (-1) 0 := (hasDerivAt_id 0).neg
  have h2 : HasDerivAt (fun x : ℝ => Real.exp (-x)) (Real.exp (-(0 : ℝ)) * -1) 0 := h1.exp
  have h3 : HasDerivAt (fun x : ℝ => 1 + Real.exp (-x)) (Real.exp (-(0 : ℝ)) * -1) 0 :=
    h2.const_add 1
  have hne : (1 : ℝ) + Real.exp (-(0 : ℝ)) ≠ 0 := by norm_num [Real.exp_zero]
  have h4 := h3.inv hne
  have hfn : sigmoidFn = fun x : ℝ => (1 + Real.exp (-x))⁻¹ := by
    funext x
    simp [sigmoidFn, one_div]
  rw [hfn]
  convert h4 using 1
  norm_num [Real.exp_zero]

end Spiral2

open Spiral2

/-- C6: for all valid 6-way coupled state tensors, assembling the six blocks
returned by `disassemble(s, dim=0)` gives back `s`, and disassembling an
assembled tuple of blocks of matching shapes returns exactly the blocks.  (The
dim=1 half of the claim fails; see the counterexample and the amended
statement.) -/
theorem C6_codec_roundtrip_dim0 (k : ℕ) (s q1 q2 p1 p2 x1 x2 : List (List ℚ))
    (h1 : q1.length = k) (h2 : q2.length = k) (h3 : p1.length = k)
    (h4 : p2.length = k) (hx : x1.length = x2.length) :
    assemble (disassembleDim0 k s).1 (disassembleDim0 k s).2.1
      (disassembleDim0 k s).2.2.1 (disassembleDim0 k s).2.2.2.1
      (disassembleDim0 k s).2.2.2.2.1 (disassembleDim0 k s).2.2.2.2.2 = s ∧
    disassembleDim0 k (assemble q1 q2 p1 p2 x1 x2) = (q1, q2, p1, p2, x1, x2) :=
  ⟨assemble_disassembleDim0 k s,
   disassembleDim0_assemble k q1 q2 p1 p2 x1 x2 h1 h2 h3 h4 hx⟩

/-- C6 witness: the dim-0 round trips at a concrete `k = 1` state. -/
theorem C6_codec_roundtrip_dim0_witness :
    assemble (disassembleDim0 1 ([[10], [20], [30], [40], [50], [60]] : List (List ℚ))).1
      (disassembleDim0 1 ([[10], [20], [30], [40], [50], [60]] : List (List ℚ))).2.1
      (disassembleDim0 1 ([[10], [20], [30], [40], [50], [60]] : List (List ℚ))).2.2.1
      (disassembleDim0 1 ([[10], [20], [30], [40], [50], [60]] : List (List ℚ))).2.2.2.1
      (disassembleDim0 1 ([[10], [20], [30], [40], [50], [60]] : List (List ℚ))).2.2.2.2.1
      (disassembleDim0 1 ([[10], [20], [30], [40], [50], [60]] : List (List ℚ))).2.2.2.2.2 =
      [[10], [20], [30], [40], [50], [60]] ∧
    disassembleDim0 1 (assemble [[(1 : ℚ)]] [[2]] [[3]] [[4]] [[5]] [[6]]) =
      ([[(1 : ℚ)]], [[2]], [[3]], [[4]], [[5]], [[6]]) :=
  C6_codec_roundtrip_dim0 1 [[10], [20], [30], [40], [50], [60]]
    [[1]] [[2]] [[3]] [[4]] [[5]] [[6]] rfl rfl rfl rfl rfl

/-- C6 counterexample: the dim=1 layout does not round-trip through
`assemble`, because `disassemble(·, dim=1)` slices along the second axis while
`assemble` concatenates along the first: already for a one-time-point tensor
with `k = 1` the reassembled tensor has the wrong shape. -/
theorem C6_cex_dim1_roundtrip_fails :
    assemble (disassembleDim1 1 ([[1, 2, 3, 4, 5, 6]] : List (List ℚ))).1
      (disassembleDim1 1 ([[1, 2, 3, 4, 5, 6]] : List (List ℚ))).2.1
      (disassembleDim1 1 ([[1, 2, 3, 4, 5, 6]] : List (List ℚ))).2.2.1
      (disassembleDim1 1 ([[1, 2, 3, 4, 5, 6]] : List (List ℚ))).2.2.2.1
      (disassembleDim1 1 ([[1, 2, 3, 4, 5, 6]] : List (List ℚ))).2.2.2.2.1
      (disassembleDim1 1 ([[1, 2, 3, 4, 5, 6]] : List (List ℚ))).2.2.2.2.2 ≠
      [[1, 2, 3, 4, 5, 6]] := by
  decide

/-- C10: `get_initial_condition(x)` assembles the stored particle parameters
with `x1 = x` and `x2 = torch.zeros_like(x)`, and `disassemble(·, dim=0)`
recovers exactly these six blocks; the `x2` block has the same shape as `x`
and is identically zero. -/
theorem C10_initial_condition (k : ℕ) (q1p q2p p1p p2p x : List (List ℚ))
    (h1 : q1p.length = k) (h2 : q2p.length = k) (h3 : p1p.length = k)
    (h4 : p2p.length = k) :
    disassembleDim0 k (getInitialCondition q1p q2p p1p p2p x) =
      (q1p, q2p, p1p, p2p, x, zerosLike x) ∧
    (zerosLike x).map List.length = x.map List.length ∧
    ∀ r ∈ zerosLike x, ∀ a ∈ r, a = 0 := by
  refine ⟨disassembleDim0_assemble k _ _ _ _ _ _ h1 h2 h3 h4 (by simp [zerosLike]), ?_, ?_⟩
  · simp [zerosLike, List.map_map, Function.comp]
  · intro r hr a ha
    obtain ⟨r₀, -, rfl⟩ := List.mem_map.1 hr
    obtain ⟨b, -, hb⟩ := List.mem_map.1 ha
    exact hb.symm

/-- C10 witness: the initial-condition layout at a concrete `k = 1` model. -/
theorem C10_initial_condition_witness :
    disassembleDim0 1 (getInitialCondition [[(1 : ℚ), 2]] [[3, 4]] [[5, 6]] [[7, 8]]
        [[9, 11], [12, 13]]) =
      ([[(1 : ℚ), 2]], [[3, 4]], [[5, 6]], [[7, 8]], [[9, 11], [12, 13]],
        zerosLike [[9, 11], [12, 13]]) ∧
    (zerosLike [[(9 : ℚ), 11], [12, 13]]).map List.length =
      ([[(9 : ℚ), 11], [12, 13]] : List (List ℚ)).map List.length ∧
    ∀ r ∈ zerosLike [[(9 : ℚ), 11], [12, 13]], ∀ a ∈ r, a = 0 :=
  C10_initial_condition 1 [[1, 2]] [[3, 4]] [[5, 6]] [[7, 8]] [[9, 11], [12, 13]]
    rfl rfl rfl rfl


/-- C8 counterexample: in `ShootingModel_1`, the recognized name `"tanh"` does
not lead to a successful construction (the claim requires every recognized
name to succeed), and the failure is not an `UnsupportedNonlinearity` error:
the argument is overwritten with `'softmax'` and the softmax branch raises a
`NameError` because no `softmax` function is defined in the module. -/
theorem C8_cex_model1_recognized_name_fails :
    (m1SelectNonlinearity (some "tanh")).isOk = false ∧
    m1SelectNonlinearity (some "tanh") ≠
      Except.error (NLError.unsupportedNonlinearity "tanh") := by
  decide

/-- C8 (amended): in `ShootingBlock`, `ShootingBlock2`, `ShootingBlockMN`,
`ShootingBlockMNModel1` and `ShootingBlockMNModel2` (identical logic),
construction fails with `UnsupportedNonlinearity` exactly when the lower-cased
requested name (defaulting to `identity` for `None`) is not among
`identity | relu | tanh | sigmoid`, and succeeds for every recognized name;
`ShootingModel_1` ignores the requested name entirely and always fails with a
`NameError` on the undefined `softmax`, never with `UnsupportedNonlinearity`. -/
theorem C8_nonlinearity_selection :
    (∀ name : Option String,
      (selectNonlinearity name =
          Except.error (NLError.unsupportedNonlinearity (useNonlinearity name)) ↔
        useNonlinearity name ∉ supportedNonlinearities) ∧
      (useNonlinearity name ∈ supportedNonlinearities →
        ∃ c, selectNonlinearity name = Except.ok c)) ∧
    ∀ name : Option String,
      m1SelectNonlinearity name = Except.error (NLError.nameError "softmax") := by
  constructor
  · intro name
    constructor
    · constructor
      · intro he hmem
        obtain ⟨c, hc⟩ := selectCore_mem hmem
        rw [selectNonlinearity] at he
        rw [hc] at he
        exact absurd he (by simp)
      · intro hnm
        show selectCore _ = _
        exact selectCore_not_mem hnm
    · intro hmem
      obtain ⟨c, hc⟩ := selectCore_mem hmem
      exact ⟨c, hc⟩
  · intro name
    rfl

/-- C4: closed-form strategy (A): `compute_theta` returns `Kbar` applied to
the flattened cross term `-mean_k(p_k ⊗ σ(q_k))`, reshaped back to `d × d`,
and `compute_bias` returns `Kbar_b · (-mean_k p_k)`, for every `q`, `p` of the
`K × d × 1` column-vector shapes. -/
theorem C4_closed_form_theta_bias {K d : ℕ} (σ : ℚ → ℚ)
    (Kbar : Fin d × Fin d → Fin d × Fin d → ℚ) (KbarB : Fin d → Fin d → ℚ)
    (q p : Fin K → Fin d → Fin 1 → ℚ) :
    computeTheta σ Kbar q p = thetaSpec σ Kbar q p ∧
    computeBias KbarB p = fun i _ => biasSpec KbarB p i := by
  constructor
  · funext i j
    simp [computeTheta, thetaSpec, crossTermSpec, outerPSigmaQ, transpose12]
  · funext i u
    have hu : u = 0 := Subsingleton.elim u 0
    subst hu
    simp [computeBias, biasSpec]

/-- C5 counterexample: `ShootingBlockMNModel2.get_norm_penalty` returns `0`
even though the quadratic form of the claim, evaluated on the same stored
parameters (with the default identity regularizers and identity nonlinearity),
is `2`. -/
theorem C5_cex_mn2_penalty_is_zero :
    mn2GetNormPenalty (fun (_ : Fin 1) (_ : Fin 1) (j : Fin 2) => if j = 0 then (1 : ℚ) else 0)
        (fun _ _ j => if j = 0 then 1 else 0) = 0 ∧
    quadTheta (eyePairs 2)
        (computeTheta id (eyePairs 2)
          (transpose12 (fun (_ : Fin 1) (_ : Fin 1) (j : Fin 2) => if j = 0 then (1 : ℚ) else 0))
          (transpose12 (fun _ _ j => if j = 0 then 1 else 0))) +
      quadBias (eye 2)
        (computeBias (eye 2)
          (transpose12 (fun (_ : Fin 1) (_ : Fin 1) (j : Fin 2) => if j = 0 then (1 : ℚ) else 0))) =
      2 := by
  constructor
  · rfl
  · simp [quadTheta, quadBias, computeTheta, computeBias, eyePairs, eye, transpose12,
      Fintype.sum_prod_type, Fin.sum_univ_succ]
    norm_num

/-- C5 (amended): `get_norm_penalty` returns the scalar
`vec(θ)ᵗ·Kbar⁻¹·vec(θ) + bᵗ·Kbar_b⁻¹·b` (with `θ`, `b` derived from the
stored `q_params`, `p_params`) in `ShootingBlock`, `ShootingBlock2` and
`ShootingBlockMN`; in `ShootingModel_1`, `ShootingBlockMNModel1` and
`ShootingBlockMNModel2` it instead returns the constant `0`. -/
theorem C5_penalty_by_variant :
    (∀ (K d : ℕ) (σ : ℚ → ℚ) (Kbar : Fin d × Fin d → Fin d × Fin d → ℚ)
        (KbarB : Fin d → Fin d → ℚ)
        (invKbar : Fin d × Fin d → Fin d × Fin d → ℚ) (invKbarB : Fin d → Fin d → ℚ)
        (qParams pParams : Fin K → Fin 1 → Fin d → ℚ) (u v : Fin 1),
      getNormPenalty σ Kbar KbarB invKbar invKbarB qParams pParams u v =
        quadTheta invKbar
          (computeTheta σ Kbar (transpose12 qParams) (transpose12 pParams)) +
        quadBias invKbarB (computeBias KbarB (transpose12 pParams))) ∧
    ∀ (K d : ℕ) (qParams pParams : Fin K → Fin 1 → Fin d → ℚ),
      mn2GetNormPenalty qParams pParams = 0 :=
  ⟨fun _ _ σ Kbar KbarB iK iKb qp pp u v =>
    getNormPenalty_eq_quadratic σ Kbar KbarB iK iKb qp pp u v,
   fun _ _ _ _ => rfl⟩

/-- C7: with the default identity-based regularizers, `get_norm_penalty` is
non-negative for every value of `q_params` and `p_params` (and every
nonlinearity): it is a sum of two quadratic forms with identity (hence
positive-semidefinite) matrices, i.e. two sums of squares. -/
theorem C7_penalty_nonneg {K d : ℕ} (σ : ℚ → ℚ)
    (qParams pParams : Fin K → Fin 1 → Fin d → ℚ) (u v : Fin 1) :
    0 ≤ getNormPenalty σ (eyePairs d) (eye d) (eyePairs d) (eye d)
        qParams pParams u v := by
  rw [getNormPenalty_eq_quadratic, quadTheta_eye, quadBias_eye]
  have h1 : (0 : ℚ) ≤ ∑ m : Fin d × Fin d,
      computeTheta σ (eyePairs d) (transpose12 qParams) (transpose12 pParams) m.1 m.2 *
        computeTheta σ (eyePairs d) (transpose12 qParams) (transpose12 pParams) m.1 m.2 :=
    Finset.sum_nonneg fun m _ => mul_self_nonneg _
  have h2 : (0 : ℚ) ≤ ∑ i,
      computeBias (eye d) (transpose12 pParams) i 0 *
        computeBias (eye d) (transpose12 pParams) i 0 :=
    Finset.sum_nonneg fun i _ => mul_self_nonneg _
  exact add_nonneg h1 h2

/-- C9: each variant's inner solve is exactly its fixed iteration count of the
gradient-descent step, iterated sequentially with no convergence check
(`mnGdStep`/`m1GdStep`/`mn2GdStep` are total functions, so the loop always
terminates), and the returned derivatives are computed from the last iterate:
5 iterations for `ShootingBlockMN`, 20 for `ShootingBlockMNModel1`, 5 for
`ShootingBlockMNModel2`. -/
theorem C9_fixed_iteration_counts :
    (∀ (K B : ℕ) (σ dσ : ℚ → ℚ) (iK : Fin 2 × Fin 2 → Fin 2 × Fin 2 → ℚ)
        (iKb : Fin 2 → Fin 2 → ℚ) (x : Fin B → Fin 2 → ℚ) (p q : Fin K → Fin 2 → ℚ)
        (init : MNParams),
      mnComputeGradients σ dσ iK iKb x p q init =
        mnPostOutputs σ dσ x p q ((mnGdStep σ iK iKb p q)^[5] init)) ∧
    (∀ (K B : ℕ) (σ dσ : ℚ → ℚ) (iK : Fin 2 × Fin 2 → Fin 2 × Fin 2 → ℚ)
        (iKb : Fin 2 → Fin 2 → ℚ) (x : Fin B → Fin 2 → ℚ) (p q : Fin K → Fin 2 → ℚ)
        (init : M1Params),
      m1ComputeGradients σ dσ iK iKb x p q init =
        m1PostOutputs σ dσ x p q ((m1GdStep σ dσ iK iKb p q)^[20] init)) ∧
    (∀ (K B : ℕ) (σ dσ : ℚ → ℚ) (iK : Fin 2 × Fin 2 → Fin 2 × Fin 2 → ℚ)
        (iKb : Fin 2 → Fin 2 → ℚ) (x1 x2 : Fin B → Fin 2 → ℚ)
        (p1 q1 p2 q2 : Fin K → Fin 2 → ℚ) (init : MN2Params),
      mn2ComputeGradients σ dσ iK iKb x1 x2 p1 q1 p2 q2 init =
        mn2PostOutputs σ dσ x1 x2 p1 q1 p2 q2
          ((mn2GdStep σ iK iKb p1 q1 p2 q2)^[5] init)) := by
  refine ⟨fun K B σ dσ iK iKb x p q init => ?_,
    fun K B σ dσ iK iKb x p q init => ?_,
    fun K B σ dσ iK iKb x1 x2 p1 q1 p2 q2 init => ?_⟩
  · rw [mnComputeGradients, mnFinalParams, foldl_range_const]; rfl
  · rw [m1ComputeGradients, m1FinalParams, foldl_range_const]; rfl
  · rw [mn2ComputeGradients, mn2FinalParams, foldl_range_const]; rfl

/-- C1: at a concrete input, `ShootingBlockMNModel2.forward` places the
co-state value `dot_p2` in the output's `q1` slot instead of `dot_q1`:
`compute_gradients` returns `(dot_x1, dot_x2, dot_p1, dot_q1, dot_p2, dot_q2)`
but `forward` unpacks `dot_x1, dot_x2, dot_p1, dot_p2, dot_q1, dot_q2`, so the
`q1` and `p2` slots are swapped.  Here: the `q1` slot of the output is
`-31/128` at the first coordinate, while the actual `dot_q1`
(`advect_q1(q2, theta1, bias1)` at the final inner-loop parameters) is
`31/32` there. -/
theorem C1_mn2_forward_swaps_q1_p2 :
    (mn2Forward id (fun _ => 1) (eyePairs 2) (eye 2) (tabMN2 0) sC).q1 =
      (fun _ j => if j = 0 then -(31 / 128) else 0) ∧
    (mn2Forward id (fun _ => 1) (eyePairs 2) (eye 2) (tabMN2 0) sC).q1 ≠
      advectQ1 id
        (mn2FinalParams id (eyePairs 2) (eye 2) p1c q1c p2c q2c (tabMN2 0)).theta1
        (mn2FinalParams id (eyePairs 2) (eye 2) p1c q1c p2c q2c (tabMN2 0)).bias1
        q2c := by
  have hq1 : (mn2Forward id (fun _ => 1) (eyePairs 2) (eye 2) (tabMN2 0) sC).q1 =
      (fun _ j => if j = 0 then -(31 / 128) else 0) := by
    funext k j
    rw [mn2Forward_eq]
    simp only [sC, mn2FinalParams_tab0]
    fin_cases j <;>
      simp [tabMN2, p1c, Fin.sum_univ_succ] <;> norm_num
  refine ⟨hq1, ?_⟩
  intro h
  have h0 := congrFun (congrFun (hq1.symm.trans h) 0) 0
  rw [mn2FinalParams_tab0] at h0
  simp [advectQ1, tabMN2, q2c, Fin.sum_univ_succ] at h0
  norm_num at h0

/-- C2 counterexample: two `forward` calls of `ShootingBlockMNModel2` on the
identical `(t, state)` pair return different outputs when the fresh
`torch.randn` initialisations of the inner solve differ — the hidden global
PRNG state makes the evaluator non-idempotent. -/
theorem C2_cex_forward_not_idempotent :
    mn2Forward id (fun _ => 1) (eyePairs 2) (eye 2) (tabMN2 0) sC ≠
      mn2Forward id (fun _ => 1) (eyePairs 2) (eye 2) (tabMN2 1) sC :=
  mn2Forward_tab0_ne_tab1

/-- C2 (amended): the closed-form `ShootingBlock` evaluator is a pure function
of the state — its output does not depend on the mutable `_number_of_calls`
counter, so repeated and out-of-order calls with equal states agree — but the
fixed-point variants re-draw a random inner initialisation from the global
PRNG at every call, and calls with identical `(t, state)` can return different
outputs. -/
theorem C2_forward_determinism_and_rng :
    (∀ (K B d : ℕ) (n n' : ℕ) (σ dσ : ℚ → ℚ)
        (Kbar : Fin d × Fin d → Fin d × Fin d → ℚ) (KbarB : Fin d → Fin d → ℚ)
        (qt pt : Fin K → Fin 1 → Fin d → ℚ) (xt : Fin B → Fin 1 → Fin d → ℚ),
      (sbForwardCounted n σ dσ Kbar KbarB qt pt xt).2 =
        (sbForwardCounted n' σ dσ Kbar KbarB qt pt xt).2) ∧
    ∃ i1 i2 : MN2Params, ∃ s : MN2State 1 1,
      mn2Forward id (fun _ => 1) (eyePairs 2) (eye 2) i1 s ≠
        mn2Forward id (fun _ => 1) (eyePairs 2) (eye 2) i2 s :=
  ⟨fun _ _ _ _ _ _ _ _ _ _ _ _ => rfl,
   tabMN2 0, tabMN2 1, sC, mn2Forward_tab0_ne_tab1⟩

/-- C3 (code bug evaluation): for the sigmoid nonlinearity the closed-form
co-state derivative and the differentiation-based one disagree, because the
source binds `self.dnl = torch.sigmoid` instead of the sigmoid's derivative.
At `K = d = 1`, `θ = 1`, `b = 0`, `p = 1`, `q = 0`: the closed form gives
`-sigmoid(0)·1 = -1/2`, differentiating `sum(p * advect_q(q,θ,b))` gives
`-sigmoid'(0)·1 = -1/4`. -/
theorem C3_sigmoid_dnl_mismatch :
    dotPClosed sigmoidFn (fun _ _ => 1) (fun (_ : Fin 1) (_ : Fin 1) => 1)
        (fun _ _ => 0) 0 0 = -(1 / 2) ∧
    dotPAutograd sigmoidFn (fun _ _ => 1) (fun _ => 0) (fun (_ : Fin 1) (_ : Fin 1) => 1)
        (fun _ _ => 0) 0 0 = -(1 / 4) ∧
    dotPClosed sigmoidFn (fun _ _ => 1) (fun (_ : Fin 1) (_ : Fin 1) => 1)
        (fun _ _ => 0) 0 0 ≠
      dotPAutograd sigmoidFn (fun _ _ => 1) (fun _ => 0) (fun (_ : Fin 1) (_ : Fin 1) => 1)
        (fun _ _ => 0) 0 0 := by
  have hclosed : dotPClosed sigmoidFn (fun _ _ => 1) (fun (_ : Fin 1) (_ : Fin 1) => 1)
      (fun _ _ => 0) 0 0 = -(1 / 2) := by
    simp [dotPClosed, sigmoidFn_zero]
  have hfun : (fun t => advectPotential sigmoidFn (fun _ _ => 1) (fun _ => 0)
      (fun (_ : Fin 1) (_ : Fin 1) => 1) (updateAt (fun _ _ => 0) 0 0 t)) = sigmoidFn := by
    funext t
    simp [advectPotential, updateAt]
  have hauto : dotPAutograd sigmoidFn (fun _ _ => 1) (fun _ => 0)
      (fun (_ : Fin 1) (_ : Fin 1) => 1) (fun _ _ => 0) 0 0 = -(1 / 4) := by
    rw [dotPAutograd, hfun]
    rw [hasDerivAt_sigmoidFn_zero.deriv]
  refine ⟨hclosed, hauto, ?_⟩
  rw [hclosed, hauto]
  norm_num
